import Mathlib

/-!
Shallow embedding of the ReasonLoop reasoning-session synchronization engine:
the session store (`src/frontend/src/stores/reasoningStore.ts`), the
WebSocket event dispatcher and connection lifecycle
(`src/hooks/useWebSocket.ts`, provided as `src/unnamed/part_000`), and the
role-rotation display logic (`src/frontend/src/components/ModelTriad.tsx`).

Conventions of the embedding:
* TypeScript strings are `String`, numbers that carry scores/temperatures are
  `ℚ` (they are exact decimals like 7.5 in the protocol), counters are `Nat`.
* `null`/`undefined` become `Option`.
* A JavaScript array that may be written at an index beyond its length
  (creating holes) is `List (Option Iteration)`; `arrGet`/`arrSet` model
  indexed read/write including hole creation.  Reading a hole or an
  out-of-range index yields `none` (JS `undefined`, falsy).
* Zustand `set`/`get` state updates become pure functions
  `ReasoningState → ReasoningState`.
-/

namespace ReasonLoop

/-- `CritiqueResult` from `reasoningStore.ts`. -/
structure CritiqueResult where
  strengths : List String
  weaknesses : List String
  suggestions : List String
  score : ℚ
  raw_critique : String
  deriving DecidableEq, Repr

/-- `Iteration` from `reasoningStore.ts`. -/
structure Iteration where
  number : Nat
  generation : String
  generation_model : String
  critique : Option CritiqueResult
  critique_model : String
  isGenerating : Bool
  isCritiquing : Bool
  deriving DecidableEq, Repr

/-- `output_length: 'short' | 'medium' | 'long'`. -/
inductive OutputLength where
  | short
  | medium
  | long
  deriving DecidableEq, Repr

/-- `mode: 'generate' | 'critique' | 'council' | 'ultrathink'`. -/
inductive ReasoningMode where
  | generate
  | critique
  | council
  | ultrathink
  deriving DecidableEq, Repr

/-- `ReasoningConfig` from `reasoningStore.ts`. -/
structure ReasoningConfig where
  generator_model : String
  critic_model : String
  refiner_model : String
  temperature : ℚ
  max_tokens : Nat
  max_iterations : Nat
  score_threshold : ℚ
  output_length : OutputLength
  mode : ReasoningMode
  deriving DecidableEq, Repr

/-- `SessionStatus` from `reasoningStore.ts`. -/
inductive SessionStatus where
  | idle
  | running
  | paused
  | completed
  | stopped
  | error
  deriving DecidableEq, Repr

/-- `ContextFile` from `reasoningStore.ts`. -/
structure ContextFile where
  name : String
  content : String
  type : String
  size : Nat
  isBase64 : Option Bool
  mimeType : Option String
  deriving DecidableEq, Repr

/-- `streamingType: 'generation' | 'critique' | null` (the `null` case is the
surrounding `Option`). -/
inductive StreamingType where
  | generation
  | critique
  deriving DecidableEq, Repr

/-- Indexed read of a JS array that may contain holes: out-of-range reads and
holes both give `undefined`, i.e. `none`. -/
def arrGet {α : Type} : List (Option α) → Nat → Option α
  | [], _ => none
  | x :: _, 0 => x
  | _ :: xs, i + 1 => arrGet xs i

/-- Indexed write `a[i] = v` of a JS array: writing past the end pads the
gap with holes and extends the array to length `i + 1`. -/
def arrSet {α : Type} : List (Option α) → Nat → α → List (Option α)
  | [], 0, v => [some v]
  | [], i + 1, v => none :: arrSet [] i v
  | _ :: xs, 0, v => some v :: xs
  | x :: xs, i + 1, v => x :: arrSet xs i v

/-- The data fields of the `ReasoningState` zustand store (the actions of the
TypeScript interface are the functions below). -/
structure ReasoningState where
  sessionId : Option String
  task : String
  context : String
  contextFiles : List ContextFile
  status : SessionStatus
  iterations : List (Option Iteration)
  currentIteration : Nat
  finalOutput : Option String
  finalScore : Option ℚ
  streamingContent : String
  streamingType : Option StreamingType
  config : ReasoningConfig
  wsConnected : Bool
  needsWebSocket : Bool
  deriving DecidableEq, Repr

/-- The result record of `getRotatedModels`. -/
structure RotatedModels where
  generator : String
  critic : String
  deriving DecidableEq, Repr

/-- `getRotatedModels` from `reasoningStore.ts`: rotate the 3-model roster
for a given iteration (council pre-phase iterations are outside this
rotation, so the index is a `Nat`).  The list has length 3 and both indices
are `< 3`, so the `getD` default is never used. -/
def getRotatedModels (config : ReasoningConfig) (iteration : Nat) : RotatedModels :=
  let models := [config.generator_model, config.critic_model, config.refiner_model]
  let genIdx := iteration % 3
  let criticIdx := (iteration + 1) % 3
  { generator := models.getD genIdx "", critic := models.getD criticIdx "" }

/-- `defaultConfig` from `reasoningStore.ts`. -/
def defaultConfig : ReasoningConfig :=
  { generator_model := "anthropic/claude-3.7-sonnet"
    critic_model := "openai/o3"
    refiner_model := "anthropic/claude-opus-4.5"
    temperature := 1
    max_tokens := 32000
    max_iterations := 5
    score_threshold := 8
    output_length := .long
    mode := .generate }

/-- The initial store state from `create(...)` in `reasoningStore.ts`. -/
def initialState : ReasoningState :=
  { sessionId := none
    task := ""
    context := ""
    contextFiles := []
    status := .idle
    iterations := []
    currentIteration := 0
    finalOutput := none
    finalScore := none
    streamingContent := ""
    streamingType := none
    config := defaultConfig
    wsConnected := false
    needsWebSocket := false }

/-- `setStatus` store action. -/
def setStatus (status : SessionStatus) (s : ReasoningState) : ReasoningState :=
  { s with status := status }

/-- `setWsConnected` store action. -/
def setWsConnected (connected : Bool) (s : ReasoningState) : ReasoningState :=
  { s with wsConnected := connected }

/-- `startGeneration` store action: open the iteration at the given index
(create it if absent, pre-filling models from the rotation), set
`isGenerating`, point `currentIteration` at it, clear the streaming buffer
and mark the session running. -/
def startGeneration (iteration : Nat) (s : ReasoningState) : ReasoningState :=
  let rotated := getRotatedModels s.config iteration
  let iterations :=
    match arrGet s.iterations iteration with
    | none =>
        arrSet s.iterations iteration
          { number := iteration
            generation := ""
            generation_model := rotated.generator
            critique := none
            critique_model := rotated.critic
            isGenerating := true
            isCritiquing := false }
    | some it => arrSet s.iterations iteration { it with isGenerating := true }
  { s with
      iterations := iterations
      currentIteration := iteration
      streamingContent := ""
      streamingType := some .generation
      status := .running }

/-- `appendGenerationChunk` store action: extend the streaming buffer and
write the whole buffer into the current iteration's `generation` (if that
iteration exists). -/
def appendGenerationChunk (chunk : String) (s : ReasoningState) : ReasoningState :=
  let streamingContent := s.streamingContent ++ chunk
  let iterations :=
    match arrGet s.iterations s.currentIteration with
    | some it =>
        arrSet s.iterations s.currentIteration { it with generation := streamingContent }
    | none => s.iterations
  { s with streamingContent := streamingContent, iterations := iterations }

/-- `completeGeneration` store action: overwrite the current iteration's
`generation` with the authoritative final content and clear `isGenerating`,
then reset the streaming buffer. -/
def completeGeneration (content : String) (s : ReasoningState) : ReasoningState :=
  let iterations :=
    match arrGet s.iterations s.currentIteration with
    | some it =>
        arrSet s.iterations s.currentIteration
          { it with generation := content, isGenerating := false }
    | none => s.iterations
  { s with iterations := iterations, streamingContent := "", streamingType := none }

/-- `startCritique` store action. -/
def startCritique (s : ReasoningState) : ReasoningState :=
  let iterations :=
    match arrGet s.iterations s.currentIteration with
    | some it => arrSet s.iterations s.currentIteration { it with isCritiquing := true }
    | none => s.iterations
  { s with iterations := iterations, streamingContent := "", streamingType := some .critique }

/-- `appendCritiqueChunk` store action: critique chunks only accumulate in
the transient streaming buffer. -/
def appendCritiqueChunk (chunk : String) (s : ReasoningState) : ReasoningState :=
  { s with streamingContent := s.streamingContent ++ chunk }

/-- `completeCritique` store action. -/
def completeCritique (critique : CritiqueResult) (s : ReasoningState) : ReasoningState :=
  let iterations :=
    match arrGet s.iterations s.currentIteration with
    | some it =>
        arrSet s.iterations s.currentIteration
          { it with critique := some critique, isCritiquing := false }
    | none => s.iterations
  { s with iterations := iterations, streamingContent := "", streamingType := none }

/-- `completeIteration` store action (the `score` argument is unused in the
source, which names it `_score`). -/
def completeIteration (content : String) (score : ℚ) (critique : CritiqueResult)
    (s : ReasoningState) : ReasoningState :=
  let _ := score
  let iterations :=
    match arrGet s.iterations s.currentIteration with
    | some it =>
        arrSet s.iterations s.currentIteration
          { it with
              generation := content
              critique := some critique
              isGenerating := false
              isCritiquing := false }
    | none => s.iterations
  { s with iterations := iterations }

/-- `completeSession` store action. -/
def completeSession (output : String) (score : ℚ) (s : ReasoningState) : ReasoningState :=
  { s with
      finalOutput := some output
      finalScore := some score
      status := .completed
      streamingContent := ""
      streamingType := none }

/-- `reset` store action: restore every field except `config` to its initial
value. -/
def reset (s : ReasoningState) : ReasoningState :=
  { s with
      sessionId := none
      task := ""
      context := ""
      contextFiles := []
      status := .idle
      iterations := []
      currentIteration := 0
      finalOutput := none
      finalScore := none
      streamingContent := ""
      streamingType := none
      wsConnected := false
      needsWebSocket := false }

/-- The inbound event envelope `ReasoningEvent` from the WebSocket hook
(`src/unnamed/part_000`).  `score` and `critique` are optional in the
TypeScript interface. -/
structure ReasoningEvent where
  type : String
  session_id : String
  iteration : Nat
  content : String
  score : Option ℚ
  critique : Option CritiqueResult
  timestamp : String
  deriving DecidableEq, Repr

/-- The 13 event types handled by the `switch` in `ws.onmessage`. -/
def knownEventTypes : List String :=
  ["session_started", "generation_start", "generation_chunk", "generation_complete",
   "critique_start", "critique_chunk", "critique_complete", "iteration_complete",
   "session_complete", "session_stopped", "session_paused", "session_resumed",
   "session_error"]

/-- The `switch (data.type)` dispatcher of `ws.onmessage` in the WebSocket
hook.  It updates the store and, for the three terminal events, sets the
`isIntentionalCloseRef` flag (second component).  An unmatched `type` falls
through with no effect. -/
def handleEvent (e : ReasoningEvent) (s : ReasoningState) (intentionalClose : Bool) :
    ReasoningState × Bool :=
  if e.type = "session_started" then (setStatus .running s, intentionalClose)
  else if e.type = "generation_start" then (startGeneration e.iteration s, intentionalClose)
  else if e.type = "generation_chunk" then (appendGenerationChunk e.content s, intentionalClose)
  else if e.type = "generation_complete" then (completeGeneration e.content s, intentionalClose)
  else if e.type = "critique_start" then (startCritique s, intentionalClose)
  else if e.type = "critique_chunk" then (appendCritiqueChunk e.content s, intentionalClose)
  else if e.type = "critique_complete" then
    match e.critique with
    | some c => (completeCritique c s, intentionalClose)
    | none => (s, intentionalClose)
  else if e.type = "iteration_complete" then
    match e.critique, e.score with
    | some c, some sc => (completeIteration e.content sc c s, intentionalClose)
    | _, _ => (s, intentionalClose)
  else if e.type = "session_complete" then
    (completeSession e.content (match e.score with | some sc => sc | none => 0) s, true)
  else if e.type = "session_stopped" then (setStatus .stopped s, true)
  else if e.type = "session_paused" then (setStatus .paused s, intentionalClose)
  else if e.type = "session_resumed" then (setStatus .running s, intentionalClose)
  else if e.type = "session_error" then (setStatus .error s, true)
  else (s, intentionalClose)

/-- Apply a sequence of inbound events in delivery order. -/
def dispatchEvents (events : List ReasoningEvent) (s : ReasoningState)
    (intentionalClose : Bool) : ReasoningState × Bool :=
  events.foldl (fun p e => handleEvent e p.1 p.2) (s, intentionalClose)

/-- The body of `ws.onmessage`: `JSON.parse` may fail, in which case the
`catch` logs and drops the message, leaving the store and the
intentional-close flag untouched; a parsed event is dispatched.  The parse
result is passed in as an `Except` (the parser itself is a platform
primitive, not repository code). -/
def onmessage (parsed : Except String ReasoningEvent) (s : ReasoningState)
    (intentionalClose : Bool) : ReasoningState × Bool :=
  match parsed with
  | .error _ => (s, intentionalClose)
  | .ok e => handleEvent e s intentionalClose

/-! ## Connection lifecycle (`useReasoningWebSocket`, `src/unnamed/part_000`) -/

/-- `maxReconnectAttempts` from the hook. -/
def maxReconnectAttempts : Nat := 3

/-- The mutable refs of `useReasoningWebSocket` that govern reconnection. -/
structure ConnRefs where
  intentionalClose : Bool
  reconnectAttempts : Nat
  connectedSession : Option String
  deriving DecidableEq, Repr

/-- `ws.onclose`: flip the store's connectivity flag off and, when the close
was not intentional, the session is still running, the binding is unchanged
and fewer than 3 attempts were made, increment the attempt counter and
schedule a reconnect after `1000 * attempts` ms (the counter is incremented
before the delay is computed).  The third component is the scheduled delay,
`none` when no reconnection is scheduled. -/
def onclose (sid : String) (r : ConnRefs) (s : ReasoningState) :
    ConnRefs × ReasoningState × Option Nat :=
  let s := setWsConnected false s
  if r.intentionalClose = false ∧ s.status = .running ∧
      r.connectedSession = some sid ∧ r.reconnectAttempts < maxReconnectAttempts then
    let r := { r with reconnectAttempts := r.reconnectAttempts + 1 }
    (r, s, some (1000 * r.reconnectAttempts))
  else
    (r, s, none)

/-- Run `n` consecutive transport closes through `ws.onclose`, collecting the
scheduled reconnection delays in order.  Nothing between the closes touches
the refs: `connect` only clears `intentionalClose` (already false on this
path) and the attempt counter is reset only by a successful open, which by
assumption never happens in this run. -/
def runCloses : Nat → String → ConnRefs → ReasoningState → ConnRefs × ReasoningState × List Nat
  | 0, _, r, s => (r, s, [])
  | n + 1, sid, r, s =>
    let step := onclose sid r s
    let rest := runCloses n sid step.1 step.2.1
    (rest.1, rest.2.1, step.2.2.toList ++ rest.2.2)

/-- Transport readiness, mirroring `WebSocket.readyState` (CONNECTING, OPEN,
CLOSING). -/
inductive WsReady where
  | connecting
  | opened
  | closing
  deriving DecidableEq, Repr

/-- An observable transport operation performed by the hook, in program
order.  `closeSocket sid intentional` records the value of
`isIntentionalCloseRef` at the moment `ws.close()` is called. -/
inductive TransportAction where
  | closeSocket (sid : String) (intentional : Bool)
  | openSocket (sid : String)
  deriving DecidableEq, Repr

/-- The refs of `useReasoningWebSocket` relevant to the session-switch
effect: the socket ref (with the session id it was created for and its
readiness), the bound session id, the intentional-close flag and the
attempt counter. -/
structure HookConn where
  ws : Option (String × WsReady)
  connectedSession : Option String
  intentionalClose : Bool
  reconnectAttempts : Nat
  deriving DecidableEq, Repr

/-- `connect(sid)` from the hook: a no-op when the current socket is already
OPEN or CONNECTING; otherwise clear `intentionalClose`, create a socket for
`sid` (readyState CONNECTING) and bind the session ref to `sid`. -/
def connect (sid : String) (h : HookConn) : HookConn × List TransportAction :=
  match h.ws with
  | some (_, .opened) => (h, [])
  | some (_, .connecting) => (h, [])
  | _ =>
    ({ h with
        intentionalClose := false
        ws := some (sid, .connecting)
        connectedSession := some sid },
     [.openSocket sid])

/-- The `useEffect` body reacting to `(sessionId, shouldConnect)` changes:
clean up when the id is absent or connection is not wanted; keep an OPEN
socket already bound to the same id; otherwise intentionally close a socket
bound to a different id, reset the attempt counter, and connect. -/
def sessionEffect (sessionId : Option String) (shouldConnect : Bool) (h : HookConn) :
    HookConn × List TransportAction :=
  match sessionId, shouldConnect with
  | none, _ =>
    (match h.ws with
     | some (osid, _) =>
       ({ h with intentionalClose := true, ws := none, connectedSession := none },
        [.closeSocket osid true])
     | none => ({ h with connectedSession := none }, []))
  | some _, false =>
    (match h.ws with
     | some (osid, _) =>
       ({ h with intentionalClose := true, ws := none, connectedSession := none },
        [.closeSocket osid true])
     | none => ({ h with connectedSession := none }, []))
  | some sid, true =>
    if h.connectedSession = some sid ∧
        (match h.ws with | some (_, .opened) => true | _ => false) = true then
      (h, [])
    else
      let closed :=
        match h.ws with
        | some (osid, _) =>
          if h.connectedSession ≠ some sid then
            ({ h with intentionalClose := true, ws := none },
             [TransportAction.closeSocket osid true])
          else (h, ([] : List TransportAction))
        | none => (h, [])
      let h2 := { closed.1 with reconnectAttempts := 0 }
      let opened := connect sid h2
      (opened.1, closed.2 ++ opened.2)

/-- Semantics of a transport action on the collection of live sockets:
`ws.close()` moves the socket to CLOSING immediately; creating a socket adds
a CONNECTING one. -/
def applyTransport (live : List (String × WsReady)) : TransportAction → List (String × WsReady)
  | .closeSocket sid _ => live.map (fun p => if p.1 = sid then (p.1, .closing) else p)
  | .openSocket sid => live ++ [(sid, .connecting)]

/-- The session ids of sockets that are open or connecting. -/
def liveOpenOrConnecting (live : List (String × WsReady)) : List String :=
  (live.filter (fun p => decide (p.2 = WsReady.opened ∨ p.2 = WsReady.connecting))).map
    Prod.fst

/-! ## Role rotation display (`ModelTriad.tsx`) -/

/-- The role a roster slot plays, as rendered by `ModelTriad`. -/
inductive TriadRole where
  | generator
  | critic
  | refiner
  deriving DecidableEq, Repr

/-- The role computation of `ModelTriad`: slot `j` is the generator when
`currentIteration % 3 = j`, the critic when `(currentIteration + 1) % 3 = j`,
and the refiner otherwise. -/
def triadRole (currentIteration : Nat) (slot : Nat) : TriadRole :=
  let genIdx := currentIteration % 3
  let critIdx := (currentIteration + 1) % 3
  if genIdx = slot then .generator
  else if critIdx = slot then .critic
  else .refiner

/-! ## Store-action traces (for the session invariants of the spec) -/

/-- One store action, as invoked by the dispatcher. -/
inductive StoreAction where
  | startGeneration (iteration : Nat)
  | appendGenerationChunk (chunk : String)
  | completeGeneration (content : String)
  | startCritique
  | appendCritiqueChunk (chunk : String)
  | completeCritique (critique : CritiqueResult)
  | completeIteration (content : String) (score : ℚ) (critique : CritiqueResult)
  | completeSession (output : String) (score : ℚ)
  deriving DecidableEq, Repr

/-- Interpret a store action. -/
def applyAction : StoreAction → ReasoningState → ReasoningState
  | .startGeneration i, s => startGeneration i s
  | .appendGenerationChunk c, s => appendGenerationChunk c s
  | .completeGeneration c, s => completeGeneration c s
  | .startCritique, s => startCritique s
  | .appendCritiqueChunk c, s => appendCritiqueChunk c s
  | .completeCritique cr, s => completeCritique cr s
  | .completeIteration c sc cr, s => completeIteration c sc cr s
  | .completeSession o sc, s => completeSession o sc s

/-- Run a list of store actions in order. -/
def runActions (acts : List StoreAction) (s : ReasoningState) : ReasoningState :=
  acts.foldl (fun st a => applyAction a st) s

/-- Phase of the generate→critique protocol for a session: `ready k` means
`k` iterations are fully finished; the other phases carry the index of the
iteration currently receiving events. -/
inductive ProtoPhase where
  | ready (k : Nat)
  | generating (k : Nat)
  | generated (k : Nat)
  | critiquing (k : Nat)
  deriving DecidableEq, Repr

/-- The protocol order of store actions within a session, as the server
emits them: each iteration is opened once, streamed, completed with
non-empty authoritative content, critiqued, and closed; `completeIteration`
re-asserts a finished iteration with non-empty content; `completeSession`
may occur at any point. -/
def protoStep (ph : ProtoPhase) (a : StoreAction) : Option ProtoPhase :=
  match ph, a with
  | ph, .completeSession _ _ => some ph
  | .ready k, .startGeneration i => if i = k then some (.generating k) else none
  | .ready k, .completeIteration c _ _ => if c = "" then none else some (.ready k)
  | .generating k, .appendGenerationChunk _ => some (.generating k)
  | .generating k, .completeGeneration c => if c = "" then none else some (.generated k)
  | .generated k, .startCritique => some (.critiquing k)
  | .critiquing k, .appendCritiqueChunk _ => some (.critiquing k)
  | .critiquing k, .completeCritique _ => some (.ready (k + 1))
  | _, _ => none

/-- Run the protocol automaton over a trace of store actions. -/
def protoRun : ProtoPhase → List StoreAction → Option ProtoPhase
  | ph, [] => some ph
  | ph, a :: rest =>
    match protoStep ph a with
    | none => none
    | some ph1 => protoRun ph1 rest

/-- Both transient flags of an iteration are off. -/
def closedIter (it : Iteration) : Prop :=
  it.isGenerating = false ∧ it.isCritiquing = false

/-- Every present iteration is closed. -/
def allClosed (l : List (Option Iteration)) : Prop :=
  ∀ i it, arrGet l i = some it → closedIter it

/-- Every present iteration other than `k` is closed. -/
def closedExcept (l : List (Option Iteration)) (k : Nat) : Prop :=
  ∀ i it, arrGet l i = some it → i ≠ k → closedIter it

/-- A critique is only present on iterations whose generation is non-empty. -/
def critiqueAfterGeneration (l : List (Option Iteration)) : Prop :=
  ∀ i it, arrGet l i = some it → it.critique.isSome = true → it.generation ≠ ""

/-- At most one of `isGenerating`/`isCritiquing` is true across all
iterations: no iteration has both, and no two distinct iterations each have
one. -/
def atMostOneActiveFlag (l : List (Option Iteration)) : Prop :=
  (∀ i it, arrGet l i = some it → ¬(it.isGenerating = true ∧ it.isCritiquing = true)) ∧
  (∀ i j iti itj, arrGet l i = some iti → arrGet l j = some itj →
    (iti.isGenerating = true ∨ iti.isCritiquing = true) →
    (itj.isGenerating = true ∨ itj.isCritiquing = true) → i = j)

/-- The store invariant maintained in each protocol phase. -/
def PhaseInv : ProtoPhase → ReasoningState → Prop
  | .ready k, s =>
    s.iterations.length = k ∧ allClosed s.iterations ∧
      critiqueAfterGeneration s.iterations
  | .generating k, s =>
    s.iterations.length = k + 1 ∧ s.currentIteration = k ∧
      (∃ it, arrGet s.iterations k = some it ∧ it.isGenerating = true ∧
        it.isCritiquing = false ∧ it.critique = none) ∧
      closedExcept s.iterations k ∧ critiqueAfterGeneration s.iterations
  | .generated k, s =>
    s.iterations.length = k + 1 ∧ s.currentIteration = k ∧
      (∃ it, arrGet s.iterations k = some it ∧ closedIter it ∧
        it.critique = none ∧ it.generation ≠ "") ∧
      closedExcept s.iterations k ∧ critiqueAfterGeneration s.iterations
  | .critiquing k, s =>
    s.iterations.length = k + 1 ∧ s.currentIteration = k ∧
      (∃ it, arrGet s.iterations k = some it ∧ it.isGenerating = false ∧
        it.isCritiquing = true ∧ it.generation ≠ "") ∧
      closedExcept s.iterations k ∧ critiqueAfterGeneration s.iterations

/-- The critique carried by the C1 scenario's `critique_complete` event. -/
def sampleCritique : CritiqueResult :=
  { strengths := ["clear structure"]
    weaknesses := ["terse"]
    suggestions := ["expand"]
    score := 15 / 2
    raw_critique := "raw critique text" }

/-- The C1 scenario event sequence. -/
def scenarioEvents : List ReasoningEvent :=
  [{ type := "session_started", session_id := "s1", iteration := 0, content := "",
     score := none, critique := none, timestamp := "t0" },
   { type := "generation_start", session_id := "s1", iteration := 0, content := "",
     score := none, critique := none, timestamp := "t1" },
   { type := "generation_chunk", session_id := "s1", iteration := 0, content := "Hel",
     score := none, critique := none, timestamp := "t2" },
   { type := "generation_chunk", session_id := "s1", iteration := 0, content := "lo",
     score := none, critique := none, timestamp := "t3" },
   { type := "generation_complete", session_id := "s1", iteration := 0, content := "Hello",
     score := none, critique := none, timestamp := "t4" },
   { type := "critique_start", session_id := "s1", iteration := 0, content := "",
     score := none, critique := none, timestamp := "t5" },
   { type := "critique_complete", session_id := "s1", iteration := 0, content := "",
     score := none, critique := some sampleCritique, timestamp := "t6" },
   { type := "session_complete", session_id := "s1", iteration := 0, content := "Hello",
     score := some (15 / 2), critique := none, timestamp := "t7" }]

/-- Apply a list of `generation_chunk` contents in order. -/
def applyGenerationChunks (chunks : List String) (s : ReasoningState) : ReasoningState :=
  chunks.foldl (fun st c => appendGenerationChunk c st) s

/-- The store state after dispatching the C1 scenario events. -/
def scenarioFinal : ReasoningState :=
  (dispatchEvents scenarioEvents initialState false).1

/-- An inbound event whose `type` is none of the 13 known ones. -/
def mysteryEvent : ReasoningEvent :=
  { type := "totally_unknown", session_id := "s1", iteration := 0, content := "x",
    score := some 1, critique := none, timestamp := "t" }

/-- A store state with iteration 0 open for generation. -/
def openIterationState : ReasoningState :=
  startGeneration 0 initialState

/-- A store state with iteration 0 open and the streaming buffer in sync
with the iteration's generation (chunk `"ab"` just streamed). -/
def c6SyncedState : ReasoningState :=
  appendGenerationChunk "ab" (startGeneration 0 initialState)

/-- The open iteration of `c6SyncedState`. -/
def c6OpenIteration : Iteration :=
  { number := 0
    generation := "ab"
    generation_model := "anthropic/claude-3.7-sonnet"
    critique := none
    critique_model := "openai/o3"
    isGenerating := true
    isCritiquing := false }

/-- A protocol-ordered demonstration trace: one full iteration, then the
session completes. -/
def demoTrace : List StoreAction :=
  [.startGeneration 0, .appendGenerationChunk "Hel", .appendGenerationChunk "lo",
   .completeGeneration "Hello", .startCritique, .appendCritiqueChunk "crit",
   .completeCritique sampleCritique, .completeIteration "Hello" (15 / 2) sampleCritique,
   .completeSession "Hello" (15 / 2)]

end ReasonLoop

namespace ReasonLoop

/-! # Lemmas about the JS array model -/

theorem arrGet_arrSet_self {α : Type} :
    ∀ (l : List (Option α)) (i : Nat) (v : α), arrGet (arrSet l i v) i = some v
  | [], 0, _ => rfl
  | [], i + 1, v => arrGet_arrSet_self [] i v
  | _ :: _, 0, _ => rfl
  | _ :: xs, i + 1, v => arrGet_arrSet_self xs i v

theorem arrGet_arrSet_ne {α : Type} :
    ∀ (l : List (Option α)) (i j : Nat) (v : α), i ≠ j →
      arrGet (arrSet l i v) j = arrGet l j
  | [], 0, 0, _, h => absurd rfl h
  | [], 0, _ + 1, _, _ => rfl
  | [], _ + 1, 0, _, _ => rfl
  | [], i + 1, j + 1, v, h => arrGet_arrSet_ne [] i j v (fun hh => h (by rw [hh]))
  | _ :: _, 0, 0, _, h => absurd rfl h
  | _ :: _, 0, _ + 1, _, _ => rfl
  | _ :: _, _ + 1, 0, _, _ => rfl
  | _ :: xs, i + 1, j + 1, v, h => arrGet_arrSet_ne xs i j v (fun hh => h (by rw [hh]))

theorem arrSet_length {α : Type} :
    ∀ (l : List (Option α)) (i : Nat) (v : α),
      (arrSet l i v).length = max l.length (i + 1)
  | [], 0, _ => rfl
  | [], i + 1, v => by
      have ih := arrSet_length ([] : List (Option α)) i v
      simp [arrSet, ih]
  | _ :: xs, 0, _ => by simp [arrSet]
  | x :: xs, i + 1, v => by
      have ih := arrSet_length xs i v
      simp [arrSet, ih]
      omega

theorem arrGet_lt_length {α : Type} :
    ∀ (l : List (Option α)) (i : Nat) (v : α), arrGet l i = some v → i < l.length
  | [], i, _, h => by simp [arrGet] at h
  | _ :: _, 0, _, _ => Nat.succ_pos _
  | _ :: xs, i + 1, v, h => Nat.succ_lt_succ (arrGet_lt_length xs i v h)

theorem arrGet_of_length_le {α : Type} :
    ∀ (l : List (Option α)) (i : Nat), l.length ≤ i → arrGet l i = none
  | [], _, _ => rfl
  | _ :: _, 0, h => absurd h (by simp)
  | _ :: xs, i + 1, h => arrGet_of_length_le xs i (by simpa using h)

/-! # Claim theorems -/

/-- C10: `reset` restores every field to its initial value except `config`,
which keeps its current value. -/
theorem reset_restores_initial_except_config (s : ReasoningState) :
    reset s = { initialState with config := s.config } ∧ (reset s).config = s.config :=
  ⟨rfl, rfl⟩

/-- C9: when the inbound payload fails to parse, `ws.onmessage` logs and
drops the message: the store state and the intentional-close flag are
unchanged, and no transport operation results (the handler is a total
function, so no exception propagates). -/
theorem onmessage_parse_failure_noop (err : String) (s : ReasoningState) (ic : Bool) :
    onmessage (.error err) s ic = (s, ic) := rfl

/-- C8: dispatching a successfully parsed event whose `type` is not one of
the 13 known event types leaves the store state and the intentional-close
flag unchanged. -/
theorem unknown_event_type_noop (e : ReasoningEvent) (s : ReasoningState) (ic : Bool)
    (h : e.type ∉ knownEventTypes) : handleEvent e s ic = (s, ic) := by
  simp only [knownEventTypes, List.mem_cons, List.not_mem_nil, or_false, not_or] at h
  obtain ⟨h1, h2, h3, h4, h5, h6, h7, h8, h9, h10, h11, h12, h13⟩ := h
  simp [handleEvent, h1, h2, h3, h4, h5, h6, h7, h8, h9, h10, h11, h12, h13]

/-- Witness for C8 at a concrete unknown event. -/
theorem unknown_event_type_noop_witness :
    mysteryEvent.type ∉ knownEventTypes ∧
      handleEvent mysteryEvent initialState false = (initialState, false) :=
  ⟨by decide, unknown_event_type_noop mysteryEvent initialState false (by decide)⟩

/-- C3: the rotation assigns the model at index `i % 3` as generator and the
one at `(i + 1) % 3` as critic; the generator/critic/refiner indices are
pairwise distinct for every `i`; the assignment has period 3; and the
`ModelTriad` rendering gives slot `(i + 2) % 3` the refiner role. -/
theorem rotation_properties (c : ReasoningConfig) (i : Nat) :
    (getRotatedModels c i).generator =
      [c.generator_model, c.critic_model, c.refiner_model].getD (i % 3) "" ∧
    (getRotatedModels c i).critic =
      [c.generator_model, c.critic_model, c.refiner_model].getD ((i + 1) % 3) "" ∧
    i % 3 ≠ (i + 1) % 3 ∧ i % 3 ≠ (i + 2) % 3 ∧ (i + 1) % 3 ≠ (i + 2) % 3 ∧
    getRotatedModels c (i + 3) = getRotatedModels c i ∧
    triadRole i (i % 3) = .generator ∧
    triadRole i ((i + 1) % 3) = .critic ∧
    triadRole i ((i + 2) % 3) = .refiner := by
  have d1 : i % 3 ≠ (i + 1) % 3 := by omega
  have d2 : i % 3 ≠ (i + 2) % 3 := by omega
  have d3 : (i + 1) % 3 ≠ (i + 2) % 3 := by omega
  have p1 : (i + 3) % 3 = i % 3 := by omega
  have p2 : (i + 3 + 1) % 3 = (i + 1) % 3 := by omega
  refine ⟨rfl, rfl, d1, d2, d3, ?_, ?_, ?_, ?_⟩
  · simp [getRotatedModels, p1, p2]
  · simp [triadRole]
  · simp [triadRole, d1]
  · simp [triadRole, d2, d3]

/-- C1: dispatching the scenario event sequence from the initial state
yields exactly one iteration (number 0) with generation `"Hello"`, critique
score 7.5, both flags off, and a completed session with final output
`"Hello"` and final score 7.5. -/
theorem scenario_final_state :
    scenarioFinal.iterations.length = 1 ∧
    (arrGet scenarioFinal.iterations 0).map Iteration.number = some 0 ∧
    (arrGet scenarioFinal.iterations 0).map Iteration.generation = some "Hello" ∧
    ((arrGet scenarioFinal.iterations 0).bind Iteration.critique).map CritiqueResult.score
      = some (15 / 2) ∧
    (arrGet scenarioFinal.iterations 0).map Iteration.isGenerating = some false ∧
    (arrGet scenarioFinal.iterations 0).map Iteration.isCritiquing = some false ∧
    scenarioFinal.status = .completed ∧
    scenarioFinal.finalOutput = some "Hello" ∧
    scenarioFinal.finalScore = some (15 / 2) :=
  ⟨rfl, rfl, rfl, rfl, rfl, rfl, rfl, rfl, rfl⟩

/-! # Generation streaming (C2) -/

theorem appendGenerationChunk_currentIteration (c : String) (s : ReasoningState) :
    (appendGenerationChunk c s).currentIteration = s.currentIteration := rfl

theorem appendGenerationChunk_isSome (c : String) (s : ReasoningState) :
    (arrGet (appendGenerationChunk c s).iterations s.currentIteration).isSome =
      (arrGet s.iterations s.currentIteration).isSome := by
  simp only [appendGenerationChunk]
  cases h : arrGet s.iterations s.currentIteration with
  | none => simp [h]
  | some it => simp [h, arrGet_arrSet_self]

theorem applyGenerationChunks_currentIteration (chunks : List String) (s : ReasoningState) :
    (applyGenerationChunks chunks s).currentIteration = s.currentIteration := by
  induction chunks generalizing s with
  | nil => rfl
  | cons c cs ih =>
    calc (applyGenerationChunks (c :: cs) s).currentIteration
        = (applyGenerationChunks cs (appendGenerationChunk c s)).currentIteration := rfl
      _ = (appendGenerationChunk c s).currentIteration := ih (appendGenerationChunk c s)
      _ = s.currentIteration := rfl

theorem applyGenerationChunks_isSome (chunks : List String) (s : ReasoningState) :
    (arrGet (applyGenerationChunks chunks s).iterations s.currentIteration).isSome =
      (arrGet s.iterations s.currentIteration).isSome := by
  induction chunks generalizing s with
  | nil => rfl
  | cons c cs ih =>
    have h2 := ih (appendGenerationChunk c s)
    rw [appendGenerationChunk_currentIteration] at h2
    calc (arrGet (applyGenerationChunks (c :: cs) s).iterations s.currentIteration).isSome
        = (arrGet (applyGenerationChunks cs (appendGenerationChunk c s)).iterations
            s.currentIteration).isSome := rfl
      _ = (arrGet (appendGenerationChunk c s).iterations s.currentIteration).isSome := h2
      _ = (arrGet s.iterations s.currentIteration).isSome := appendGenerationChunk_isSome c s

theorem completeGeneration_currentIteration (c : String) (s : ReasoningState) :
    (completeGeneration c s).currentIteration = s.currentIteration := rfl

/-- C2: whatever `generation_chunk`s were applied in between, applying
`generation_complete` with content `c` to a state with an open current
iteration leaves that iteration's `generation` equal to exactly `c` and its
`isGenerating` flag off: the authoritative final content replaces any
accumulated partial text. -/
theorem completeGeneration_authoritative (s : ReasoningState) (chunks : List String)
    (content : String)
    (hopen : (arrGet s.iterations s.currentIteration).isSome = true) :
    (arrGet (completeGeneration content (applyGenerationChunks chunks s)).iterations
        (completeGeneration content (applyGenerationChunks chunks s)).currentIteration).map
      Iteration.generation = some content ∧
    (arrGet (completeGeneration content (applyGenerationChunks chunks s)).iterations
        (completeGeneration content (applyGenerationChunks chunks s)).currentIteration).map
      Iteration.isGenerating = some false := by
  have hcur : (applyGenerationChunks chunks s).currentIteration = s.currentIteration :=
    applyGenerationChunks_currentIteration chunks s
  have hsome :
      (arrGet (applyGenerationChunks chunks s).iterations
        (applyGenerationChunks chunks s).currentIteration).isSome = true := by
    rw [hcur, applyGenerationChunks_isSome]
    exact hopen
  obtain ⟨it, hit⟩ := Option.isSome_iff_exists.mp hsome
  rw [completeGeneration_currentIteration]
  simp only [completeGeneration, hit]
  rw [hcur] at hit ⊢
  simp [arrGet_arrSet_self]

/-- Witness for C2: chunks `"ab"`, `"c"`, then `generation_complete "xyz"`
on a freshly opened iteration yields generation `"xyz"`, not `"abcxyz"`. -/
theorem completeGeneration_authoritative_witness :
    (arrGet openIterationState.iterations openIterationState.currentIteration).isSome = true ∧
    ((arrGet (completeGeneration "xyz" (applyGenerationChunks ["ab", "c"] openIterationState)).iterations
        (completeGeneration "xyz" (applyGenerationChunks ["ab", "c"] openIterationState)).currentIteration).map
      Iteration.generation = some "xyz" ∧
    (arrGet (completeGeneration "xyz" (applyGenerationChunks ["ab", "c"] openIterationState)).iterations
        (completeGeneration "xyz" (applyGenerationChunks ["ab", "c"] openIterationState)).currentIteration).map
      Iteration.isGenerating = some false) :=
  ⟨rfl, completeGeneration_authoritative openIterationState ["ab", "c"] "xyz" rfl⟩

/-! # Bounded reconnection (C4) -/

theorem onclose_active (sid : String) (r : ConnRefs) (s : ReasoningState)
    (h1 : r.intentionalClose = false) (h2 : s.status = .running)
    (h3 : r.connectedSession = some sid) (h4 : r.reconnectAttempts < maxReconnectAttempts) :
    onclose sid r s =
      ({ r with reconnectAttempts := r.reconnectAttempts + 1 }, setWsConnected false s,
        some (1000 * (r.reconnectAttempts + 1))) := by
  have h2a : (setWsConnected false s).status = SessionStatus.running := h2
  simp only [onclose]
  rw [if_pos ⟨h1, h2a, h3, h4⟩]

theorem onclose_noop (sid : String) (r : ConnRefs) (s : ReasoningState)
    (h : maxReconnectAttempts ≤ r.reconnectAttempts) :
    onclose sid r s = (r, setWsConnected false s, none) := by
  simp only [onclose]
  rw [if_neg]
  rintro ⟨-, -, -, h4⟩
  omega

theorem runCloses_succ (k : Nat) (sid : String) (r : ConnRefs) (s : ReasoningState) :
    runCloses (k + 1) sid r s =
      ((runCloses k sid (onclose sid r s).1 (onclose sid r s).2.1).1,
       (runCloses k sid (onclose sid r s).1 (onclose sid r s).2.1).2.1,
       (onclose sid r s).2.2.toList ++
         (runCloses k sid (onclose sid r s).1 (onclose sid r s).2.1).2.2) := rfl

theorem runCloses_saturated (m : Nat) (sid : String) (r : ConnRefs) (s : ReasoningState)
    (h : maxReconnectAttempts ≤ r.reconnectAttempts) :
    (runCloses m sid r s).2.2 = [] ∧ (runCloses m sid r s).1 = r := by
  induction m generalizing s with
  | zero => exact ⟨rfl, rfl⟩
  | succ m ih =>
    rw [runCloses_succ, onclose_noop sid r s h]
    simpa using ih (setWsConnected false s)

/-- C4: starting from a fresh attempt counter, with the close never
intentional, the session status `running`, and the binding unchanged, a run
of `n ≥ 3` consecutive unintentional closes schedules exactly 3
reconnections, with delays 1000 ms, 2000 ms and 3000 ms (the counter is
incremented before each delay is computed), and no close after the third
schedules anything. -/
theorem reconnect_linear_backoff (n : Nat) (sid : String) (r : ConnRefs) (s : ReasoningState)
    (hn : 3 ≤ n) (hic : r.intentionalClose = false) (ha : r.reconnectAttempts = 0)
    (hb : r.connectedSession = some sid) (hs : s.status = .running) :
    (runCloses n sid r s).2.2 = [1000, 2000, 3000] ∧
    (runCloses n sid r s).1.reconnectAttempts = 3 := by
  obtain ⟨m, rfl⟩ : ∃ m, n = m + 3 := ⟨n - 3, by omega⟩
  obtain ⟨ic, att, cs⟩ := r
  simp only [ConnRefs.intentionalClose, ConnRefs.reconnectAttempts,
    ConnRefs.connectedSession] at hic ha hb
  subst hic ha hb
  have hs1 : (setWsConnected false s).status = SessionStatus.running := hs
  have hs2 : (setWsConnected false (setWsConnected false s)).status = SessionStatus.running := hs
  have e1 := onclose_active sid ⟨false, 0, some sid⟩ s rfl hs rfl (by simp [maxReconnectAttempts])
  have e2 := onclose_active sid ⟨false, 1, some sid⟩ (setWsConnected false s) rfl hs1 rfl
    (by simp [maxReconnectAttempts])
  have e3 := onclose_active sid ⟨false, 2, some sid⟩ (setWsConnected false (setWsConnected false s))
    rfl hs2 rfl (by simp [maxReconnectAttempts])
  have hsat := runCloses_saturated m sid ⟨false, 3, some sid⟩
    (setWsConnected false (setWsConnected false (setWsConnected false s)))
    (by simp [maxReconnectAttempts])
  have step3 : (m + 3) = (m + 2) + 1 := rfl
  rw [step3, runCloses_succ, e1]
  rw [show (m + 2) = (m + 1) + 1 from rfl, runCloses_succ, e2]
  rw [show (m + 1) = m + 1 from rfl, runCloses_succ, e3]
  simp only [Option.toList_some]
  refine ⟨?_, ?_⟩
  · simp [hsat.1]
  · simp [hsat.2]

/-- Witness for C4: three closes on a concrete running session. -/
theorem reconnect_linear_backoff_witness :
    (3 ≤ 3 ∧ (⟨false, 0, some "s1"⟩ : ConnRefs).intentionalClose = false ∧
      (⟨false, 0, some "s1"⟩ : ConnRefs).reconnectAttempts = 0 ∧
      (⟨false, 0, some "s1"⟩ : ConnRefs).connectedSession = some "s1" ∧
      (setStatus .running initialState).status = .running) ∧
    ((runCloses 3 "s1" ⟨false, 0, some "s1"⟩ (setStatus .running initialState)).2.2 =
        [1000, 2000, 3000] ∧
      (runCloses 3 "s1" ⟨false, 0, some "s1"⟩ (setStatus .running initialState)).1.reconnectAttempts
        = 3) :=
  ⟨⟨le_refl 3, rfl, rfl, rfl, rfl⟩,
    reconnect_linear_backoff 3 "s1" ⟨false, 0, some "s1"⟩ (setStatus .running initialState)
      (le_refl 3) rfl rfl rfl rfl⟩

/-! # Session switching (C7) -/

/-- C7: when a connect request arrives for a session id `b` different from
the currently bound id `a` whose socket is open, the effect closes the old
socket with the intentional-close flag set (the close action precedes the
open action in program order), rebinds to `b` with a fresh connecting
socket, and along every prefix of the emitted transport actions at most one
socket is open-or-connecting. -/
theorem session_switch_closes_before_opening (h : HookConn) (a b : String) (n : Nat)
    (hws : h.ws = some (a, WsReady.opened)) (hcs : h.connectedSession = some a)
    (hab : b ≠ a) :
    (sessionEffect (some b) true h).2 =
      [TransportAction.closeSocket a true, TransportAction.openSocket b] ∧
    (sessionEffect (some b) true h).1.ws = some (b, WsReady.connecting) ∧
    (sessionEffect (some b) true h).1.connectedSession = some b ∧
    (liveOpenOrConnecting
      (((sessionEffect (some b) true h).2.take n).foldl applyTransport
        [(a, WsReady.opened)])).length ≤ 1 := by
  have hba : ¬(h.connectedSession = some b ∧
      (match h.ws with | some (_, .opened) => true | _ => false) = true) := by
    rintro ⟨hc, -⟩
    rw [hcs] at hc
    exact hab (Option.some.injEq _ _ ▸ hc.symm)
  have heff : sessionEffect (some b) true h =
      ((⟨some (b, WsReady.connecting), some b, false, 0⟩ : HookConn),
       [TransportAction.closeSocket a true, TransportAction.openSocket b]) := by
    simp only [sessionEffect]
    rw [if_neg hba]
    have hne : h.connectedSession ≠ some b := by
      rw [hcs]
      intro hc
      exact hab (Option.some.injEq _ _ ▸ hc.symm)
    simp only [hws]
    rw [if_pos hne]
    simp [connect]
  refine ⟨by rw [heff], by rw [heff], by rw [heff], ?_⟩
  rw [heff]
  match n with
  | 0 => simp [liveOpenOrConnecting]
  | 1 => simp [liveOpenOrConnecting, applyTransport]
  | (k + 2) =>
    simp only [List.take_succ_cons, List.take_nil, List.foldl_cons, List.foldl_nil]
    simp [liveOpenOrConnecting, applyTransport]

/-- Witness for C7 on concrete session ids. -/
theorem session_switch_closes_before_opening_witness :
    ((⟨some ("s1", WsReady.opened), some "s1", false, 0⟩ : HookConn).ws =
        some ("s1", WsReady.opened) ∧
      (⟨some ("s1", WsReady.opened), some "s1", false, 0⟩ : HookConn).connectedSession =
        some "s1" ∧ "s2" ≠ "s1") ∧
    ((sessionEffect (some "s2") true ⟨some ("s1", WsReady.opened), some "s1", false, 0⟩).2 =
      [TransportAction.closeSocket "s1" true, TransportAction.openSocket "s2"] ∧
    (sessionEffect (some "s2") true ⟨some ("s1", WsReady.opened), some "s1", false, 0⟩).1.ws =
      some ("s2", WsReady.connecting) ∧
    (sessionEffect (some "s2") true
        ⟨some ("s1", WsReady.opened), some "s1", false, 0⟩).1.connectedSession = some "s2" ∧
    (liveOpenOrConnecting
      (((sessionEffect (some "s2") true
          ⟨some ("s1", WsReady.opened), some "s1", false, 0⟩).2.take 2).foldl applyTransport
        [("s1", WsReady.opened)])).length ≤ 1) :=
  ⟨⟨rfl, rfl, by decide⟩,
    session_switch_closes_before_opening ⟨some ("s1", WsReady.opened), some "s1", false, 0⟩
      "s1" "s2" 2 rfl rfl (by decide)⟩

/-! # Chunk accumulation (C6) -/

/-- Counterexample to C6 as stated: after `generation_start 0`,
`generation_chunk "ab"`, and a duplicate `generation_start 0` (iteration 0
is open and no `generation_complete` has been applied), the chunk `"c"`
sets the iteration's generation to `"c"`, not to the previous value
`"ab"` with `"c"` appended — the buffer reset by the duplicate
`generation_start` makes the chunk replace, and shorten, the accumulated
text. -/
theorem appendGenerationChunk_not_append_counterexample :
    (arrGet (startGeneration 0 (appendGenerationChunk "ab"
        (startGeneration 0 initialState))).iterations 0).map Iteration.generation =
      some "ab" ∧
    (startGeneration 0 (appendGenerationChunk "ab"
        (startGeneration 0 initialState))).currentIteration = 0 ∧
    (arrGet (appendGenerationChunk "c" (startGeneration 0 (appendGenerationChunk "ab"
        (startGeneration 0 initialState)))).iterations 0).map Iteration.generation =
      some "c" ∧
    ("c" : String) ≠ "ab" ++ "c" := by
  refine ⟨rfl, rfl, rfl, by decide⟩

/-- C6 (amended): a `generation_chunk` with content `c` sets the open
iteration's generation to the streaming buffer extended by `c`; whenever
the buffer equals the iteration's current generation — which holds as long
as only chunk events have been applied since the iteration was opened
fresh — the new generation is the previous generation with `c` appended,
so accumulation is monotonic under those conditions. -/
theorem appendGenerationChunk_appends_when_synced (s : ReasoningState) (c : String)
    (it : Iteration) (hopen : arrGet s.iterations s.currentIteration = some it)
    (hsync : s.streamingContent = it.generation) :
    (arrGet (appendGenerationChunk c s).iterations
        (appendGenerationChunk c s).currentIteration).map Iteration.generation =
      some (it.generation ++ c) := by
  rw [appendGenerationChunk_currentIteration]
  simp only [appendGenerationChunk, hopen]
  simp [arrGet_arrSet_self, hsync]

/-- Witness for the amended C6 on a concrete synced state. -/
theorem appendGenerationChunk_appends_when_synced_witness :
    (arrGet c6SyncedState.iterations c6SyncedState.currentIteration =
        some c6OpenIteration ∧
      c6SyncedState.streamingContent = c6OpenIteration.generation) ∧
    (arrGet (appendGenerationChunk "c" c6SyncedState).iterations
        (appendGenerationChunk "c" c6SyncedState).currentIteration).map
      Iteration.generation = some (c6OpenIteration.generation ++ "c") :=
  ⟨⟨rfl, rfl⟩,
    appendGenerationChunk_appends_when_synced c6SyncedState "c" c6OpenIteration rfl rfl⟩

/-! # Session flag and critique invariants (C5) -/

/-- Counterexample to C5 as stated: the action sequence
`startGeneration 0; startCritique` (legal under arbitrary sequencing, since
`startCritique` does not clear `isGenerating`) leaves iteration 0 with both
flags true, and `startGeneration 0; completeCritique` writes a critique
while the iteration's generation is still the empty string. -/
theorem session_flags_counterexample :
    (arrGet (startCritique (startGeneration 0 initialState)).iterations 0).map
      Iteration.isGenerating = some true ∧
    (arrGet (startCritique (startGeneration 0 initialState)).iterations 0).map
      Iteration.isCritiquing = some true ∧
    ((arrGet (completeCritique sampleCritique
        (startGeneration 0 initialState)).iterations 0).bind Iteration.critique).isSome
      = true ∧
    (arrGet (completeCritique sampleCritique
        (startGeneration 0 initialState)).iterations 0).map Iteration.generation =
      some "" :=
  ⟨rfl, rfl, rfl, rfl⟩

theorem inv_startGeneration (k : Nat) (s : ReasoningState)
    (hinv : PhaseInv (.ready k) s) : PhaseInv (.generating k) (startGeneration k s) := by
  obtain ⟨hlen, hclosed, hcrit⟩ :
      s.iterations.length = k ∧ allClosed s.iterations ∧
        critiqueAfterGeneration s.iterations := hinv
  have hnone : arrGet s.iterations k = none := arrGet_of_length_le _ _ (le_of_eq hlen)
  simp only [PhaseInv, startGeneration, hnone]
  refine ⟨?_, trivial, ?_, ?_, ?_⟩
  · rw [arrSet_length, hlen]
    omega
  · exact ⟨_, arrGet_arrSet_self _ _ _, rfl, rfl, rfl⟩
  · intro i it hi hik
    rw [arrGet_arrSet_ne _ _ _ _ (fun hh => hik hh.symm)] at hi
    exact hclosed i it hi
  · intro i it hi hsome
    by_cases hik : i = k
    · subst hik
      rw [arrGet_arrSet_self] at hi
      injection hi with hfe
      rw [← hfe] at hsome
      simp at hsome
    · rw [arrGet_arrSet_ne _ _ _ _ (fun hh => hik hh.symm)] at hi
      exact hcrit i it hi hsome

theorem inv_appendGenerationChunk (k : Nat) (c : String) (s : ReasoningState)
    (hinv : PhaseInv (.generating k) s) :
    PhaseInv (.generating k) (appendGenerationChunk c s) := by
  obtain ⟨hlen, hcur, ⟨itk, hitk, hg, hc, hcr0⟩, hexc, hcrit⟩ :
      s.iterations.length = k + 1 ∧ s.currentIteration = k ∧
        (∃ it, arrGet s.iterations k = some it ∧ it.isGenerating = true ∧
          it.isCritiquing = false ∧ it.critique = none) ∧
        closedExcept s.iterations k ∧ critiqueAfterGeneration s.iterations := hinv
  have hklen : k < s.iterations.length := arrGet_lt_length _ _ _ hitk
  simp only [PhaseInv, appendGenerationChunk, hcur, hitk]
  refine ⟨?_, trivial, ?_, ?_, ?_⟩
  · rw [arrSet_length]
    omega
  · exact ⟨_, arrGet_arrSet_self _ _ _, hg, hc, hcr0⟩
  · intro i it hi hik
    rw [arrGet_arrSet_ne _ _ _ _ (fun hh => hik hh.symm)] at hi
    exact hexc i it hi hik
  · intro i it hi hsome
    by_cases hik : i = k
    · subst hik
      rw [arrGet_arrSet_self] at hi
      injection hi with hfe
      rw [← hfe] at hsome
      simp [hcr0] at hsome
    · rw [arrGet_arrSet_ne _ _ _ _ (fun hh => hik hh.symm)] at hi
      exact hcrit i it hi hsome

theorem inv_completeGeneration (k : Nat) (c : String) (s : ReasoningState) (hc0 : c ≠ "")
    (hinv : PhaseInv (.generating k) s) :
    PhaseInv (.generated k) (completeGeneration c s) := by
  obtain ⟨hlen, hcur, ⟨itk, hitk, hg, hc, hcr0⟩, hexc, hcrit⟩ :
      s.iterations.length = k + 1 ∧ s.currentIteration = k ∧
        (∃ it, arrGet s.iterations k = some it ∧ it.isGenerating = true ∧
          it.isCritiquing = false ∧ it.critique = none) ∧
        closedExcept s.iterations k ∧ critiqueAfterGeneration s.iterations := hinv
  have hklen : k < s.iterations.length := arrGet_lt_length _ _ _ hitk
  simp only [PhaseInv, completeGeneration, hcur, hitk]
  refine ⟨?_, trivial, ?_, ?_, ?_⟩
  · rw [arrSet_length]
    omega
  · exact ⟨_, arrGet_arrSet_self _ _ _, ⟨rfl, hc⟩, hcr0, hc0⟩
  · intro i it hi hik
    rw [arrGet_arrSet_ne _ _ _ _ (fun hh => hik hh.symm)] at hi
    exact hexc i it hi hik
  · intro i it hi hsome
    by_cases hik : i = k
    · subst hik
      rw [arrGet_arrSet_self] at hi
      injection hi with hfe
      rw [← hfe] at hsome
      simp [hcr0] at hsome
    · rw [arrGet_arrSet_ne _ _ _ _ (fun hh => hik hh.symm)] at hi
      exact hcrit i it hi hsome

theorem inv_startCritique (k : Nat) (s : ReasoningState)
    (hinv : PhaseInv (.generated k) s) :
    PhaseInv (.critiquing k) (startCritique s) := by
  obtain ⟨hlen, hcur, ⟨itk, hitk, ⟨hg, hc⟩, hcr0, hgen⟩, hexc, hcrit⟩ :
      s.iterations.length = k + 1 ∧ s.currentIteration = k ∧
        (∃ it, arrGet s.iterations k = some it ∧ closedIter it ∧
          it.critique = none ∧ it.generation ≠ "") ∧
        closedExcept s.iterations k ∧ critiqueAfterGeneration s.iterations := hinv
  have hklen : k < s.iterations.length := arrGet_lt_length _ _ _ hitk
  simp only [PhaseInv, startCritique, hcur, hitk]
  refine ⟨?_, trivial, ?_, ?_, ?_⟩
  · rw [arrSet_length]
    omega
  · exact ⟨_, arrGet_arrSet_self _ _ _, hg, rfl, hgen⟩
  · intro i it hi hik
    rw [arrGet_arrSet_ne _ _ _ _ (fun hh => hik hh.symm)] at hi
    exact hexc i it hi hik
  · intro i it hi hsome
    by_cases hik : i = k
    · subst hik
      rw [arrGet_arrSet_self] at hi
      injection hi with hfe
      rw [← hfe] at hsome
      simp [hcr0] at hsome
    · rw [arrGet_arrSet_ne _ _ _ _ (fun hh => hik hh.symm)] at hi
      exact hcrit i it hi hsome

theorem inv_appendCritiqueChunk (k : Nat) (c : String) (s : ReasoningState)
    (hinv : PhaseInv (.critiquing k) s) :
    PhaseInv (.critiquing k) (appendCritiqueChunk c s) := hinv

theorem inv_completeCritique (k : Nat) (cr : CritiqueResult) (s : ReasoningState)
    (hinv : PhaseInv (.critiquing k) s) :
    PhaseInv (.ready (k + 1)) (completeCritique cr s) := by
  obtain ⟨hlen, hcur, ⟨itk, hitk, hg, hc, hgen⟩, hexc, hcrit⟩ :
      s.iterations.length = k + 1 ∧ s.currentIteration = k ∧
        (∃ it, arrGet s.iterations k = some it ∧ it.isGenerating = false ∧
          it.isCritiquing = true ∧ it.generation ≠ "") ∧
        closedExcept s.iterations k ∧ critiqueAfterGeneration s.iterations := hinv
  have hklen : k < s.iterations.length := arrGet_lt_length _ _ _ hitk
  simp only [PhaseInv, completeCritique, hcur, hitk]
  refine ⟨?_, ?_, ?_⟩
  · rw [arrSet_length]
    omega
  · intro i it hi
    by_cases hik : i = k
    · subst hik
      rw [arrGet_arrSet_self] at hi
      injection hi with hfe
      rw [← hfe]
      exact ⟨hg, rfl⟩
    · rw [arrGet_arrSet_ne _ _ _ _ (fun hh => hik hh.symm)] at hi
      exact hexc i it hi hik
  · intro i it hi hsome
    by_cases hik : i = k
    · subst hik
      rw [arrGet_arrSet_self] at hi
      injection hi with hfe
      rw [← hfe]
      exact hgen
    · rw [arrGet_arrSet_ne _ _ _ _ (fun hh => hik hh.symm)] at hi
      exact hcrit i it hi hsome

theorem inv_completeIteration (k : Nat) (c : String) (sc : ℚ) (cr : CritiqueResult)
    (s : ReasoningState) (hc0 : c ≠ "") (hinv : PhaseInv (.ready k) s) :
    PhaseInv (.ready k) (completeIteration c sc cr s) := by
  obtain ⟨hlen, hclosed, hcrit⟩ :
      s.iterations.length = k ∧ allClosed s.iterations ∧
        critiqueAfterGeneration s.iterations := hinv
  cases harr : arrGet s.iterations s.currentIteration with
  | none =>
    simp only [PhaseInv, completeIteration, harr]
    exact ⟨hlen, hclosed, hcrit⟩
  | some it0 =>
    have hklen : s.currentIteration < s.iterations.length :=
      arrGet_lt_length _ _ _ harr
    simp only [PhaseInv, completeIteration, harr]
    refine ⟨?_, ?_, ?_⟩
    · rw [arrSet_length]
      omega
    · intro i it hi
      by_cases hik : i = s.currentIteration
      · subst hik
        rw [arrGet_arrSet_self] at hi
        injection hi with hfe
        rw [← hfe]
        exact ⟨rfl, rfl⟩
      · rw [arrGet_arrSet_ne _ _ _ _ (fun hh => hik hh.symm)] at hi
        exact hclosed i it hi
    · intro i it hi hsome
      by_cases hik : i = s.currentIteration
      · subst hik
        rw [arrGet_arrSet_self] at hi
        injection hi with hfe
        rw [← hfe]
        exact hc0
      · rw [arrGet_arrSet_ne _ _ _ _ (fun hh => hik hh.symm)] at hi
        exact hcrit i it hi hsome

theorem inv_completeSession (ph : ProtoPhase) (o : String) (sc : ℚ) (s : ReasoningState)
    (hinv : PhaseInv ph s) : PhaseInv ph (completeSession o sc s) := by
  cases ph <;> exact hinv

theorem protoStep_preserves (ph ph' : ProtoPhase) (a : StoreAction) (s : ReasoningState)
    (hstep : protoStep ph a = some ph') (hinv : PhaseInv ph s) :
    PhaseInv ph' (applyAction a s) := by
  cases a with
  | startGeneration i =>
    cases ph with
    | ready k =>
      simp only [protoStep] at hstep
      by_cases hik : i = k
      · rw [if_pos hik] at hstep
        injection hstep with h
        subst h
        subst hik
        exact inv_startGeneration i s hinv
      · rw [if_neg hik] at hstep
        exact Option.noConfusion hstep
    | generating k => exact Option.noConfusion hstep
    | generated k => exact Option.noConfusion hstep
    | critiquing k => exact Option.noConfusion hstep
  | appendGenerationChunk c =>
    cases ph with
    | generating k =>
      simp only [protoStep] at hstep
      injection hstep with h
      subst h
      exact inv_appendGenerationChunk k c s hinv
    | ready k => exact Option.noConfusion hstep
    | generated k => exact Option.noConfusion hstep
    | critiquing k => exact Option.noConfusion hstep
  | completeGeneration c =>
    cases ph with
    | generating k =>
      simp only [protoStep] at hstep
      by_cases hc0 : c = ""
      · rw [if_pos hc0] at hstep
        exact Option.noConfusion hstep
      · rw [if_neg hc0] at hstep
        injection hstep with h
        subst h
        exact inv_completeGeneration k c s hc0 hinv
    | ready k => exact Option.noConfusion hstep
    | generated k => exact Option.noConfusion hstep
    | critiquing k => exact Option.noConfusion hstep
  | startCritique =>
    cases ph with
    | generated k =>
      simp only [protoStep] at hstep
      injection hstep with h
      subst h
      exact inv_startCritique k s hinv
    | ready k => exact Option.noConfusion hstep
    | generating k => exact Option.noConfusion hstep
    | critiquing k => exact Option.noConfusion hstep
  | appendCritiqueChunk c =>
    cases ph with
    | critiquing k =>
      simp only [protoStep] at hstep
      injection hstep with h
      subst h
      exact inv_appendCritiqueChunk k c s hinv
    | ready k => exact Option.noConfusion hstep
    | generating k => exact Option.noConfusion hstep
    | generated k => exact Option.noConfusion hstep
  | completeCritique cr =>
    cases ph with
    | critiquing k =>
      simp only [protoStep] at hstep
      injection hstep with h
      subst h
      exact inv_completeCritique k cr s hinv
    | ready k => exact Option.noConfusion hstep
    | generating k => exact Option.noConfusion hstep
    | generated k => exact Option.noConfusion hstep
  | completeIteration c sc cr =>
    cases ph with
    | ready k =>
      simp only [protoStep] at hstep
      by_cases hc0 : c = ""
      · rw [if_pos hc0] at hstep
        exact Option.noConfusion hstep
      · rw [if_neg hc0] at hstep
        injection hstep with h
        subst h
        exact inv_completeIteration k c sc cr s hc0 hinv
    | generating k => exact Option.noConfusion hstep
    | generated k => exact Option.noConfusion hstep
    | critiquing k => exact Option.noConfusion hstep
  | completeSession o sc =>
    have h : ph = ph' := by
      cases ph <;> exact Option.some.inj hstep
    subst h
    exact inv_completeSession ph o sc s hinv

theorem protoRun_preserves (acts : List StoreAction) (ph ph' : ProtoPhase)
    (s : ReasoningState) (hrun : protoRun ph acts = some ph') (hinv : PhaseInv ph s) :
    PhaseInv ph' (runActions acts s) := by
  induction acts generalizing ph s with
  | nil =>
    simp only [protoRun] at hrun
    injection hrun with h
    subst h
    exact hinv
  | cons a rest ih =>
    simp only [protoRun] at hrun
    cases hstep : protoStep ph a with
    | none =>
      rw [hstep] at hrun
      exact Option.noConfusion hrun
    | some ph1 =>
      rw [hstep] at hrun
      exact ih ph1 (applyAction a s) hrun (protoStep_preserves ph ph1 a s hstep hinv)

theorem initial_phaseInv : PhaseInv (.ready 0) initialState := by
  refine ⟨rfl, ?_, ?_⟩ <;> intro i it hi <;> cases i <;> exact Option.noConfusion hi

theorem phaseInv_safety (ph : ProtoPhase) (s : ReasoningState) (hinv : PhaseInv ph s) :
    atMostOneActiveFlag s.iterations ∧ critiqueAfterGeneration s.iterations := by
  cases ph with
  | ready k =>
    obtain ⟨-, hclosed, hcrit⟩ :
        s.iterations.length = k ∧ allClosed s.iterations ∧
          critiqueAfterGeneration s.iterations := hinv
    refine ⟨⟨?_, ?_⟩, hcrit⟩
    · intro i it hi hboth
      rw [(hclosed i it hi).1] at hboth
      exact Bool.noConfusion hboth.1
    · intro i j iti itj hi hj hfi hfj
      exfalso
      rcases hfi with hg | hc
      · rw [(hclosed i iti hi).1] at hg
        exact Bool.noConfusion hg
      · rw [(hclosed i iti hi).2] at hc
        exact Bool.noConfusion hc
  | generating k =>
    obtain ⟨-, -, ⟨itk, hitk, hg, hc, -⟩, hexc, hcrit⟩ :
        s.iterations.length = k + 1 ∧ s.currentIteration = k ∧
          (∃ it, arrGet s.iterations k = some it ∧ it.isGenerating = true ∧
            it.isCritiquing = false ∧ it.critique = none) ∧
          closedExcept s.iterations k ∧ critiqueAfterGeneration s.iterations := hinv
    refine ⟨⟨?_, ?_⟩, hcrit⟩
    · intro i it hi hboth
      by_cases hik : i = k
      · subst hik
        rw [hitk] at hi
        injection hi with hfe
        rw [← hfe] at hboth
        rw [hc] at hboth
        exact Bool.noConfusion hboth.2
      · rw [(hexc i it hi hik).1] at hboth
        exact Bool.noConfusion hboth.1
    · intro i j iti itj hi hj hfi hfj
      by_cases hik : i = k
      · by_cases hjk : j = k
        · rw [hik, hjk]
        · exfalso
          rcases hfj with hg2 | hc2
          · rw [(hexc j itj hj hjk).1] at hg2
            exact Bool.noConfusion hg2
          · rw [(hexc j itj hj hjk).2] at hc2
            exact Bool.noConfusion hc2
      · exfalso
        rcases hfi with hg2 | hc2
        · rw [(hexc i iti hi hik).1] at hg2
          exact Bool.noConfusion hg2
        · rw [(hexc i iti hi hik).2] at hc2
          exact Bool.noConfusion hc2
  | generated k =>
    obtain ⟨-, -, ⟨itk, hitk, ⟨hg, hc⟩, -, -⟩, hexc, hcrit⟩ :
        s.iterations.length = k + 1 ∧ s.currentIteration = k ∧
          (∃ it, arrGet s.iterations k = some it ∧ closedIter it ∧
            it.critique = none ∧ it.generation ≠ "") ∧
          closedExcept s.iterations k ∧ critiqueAfterGeneration s.iterations := hinv
    have hclosed : allClosed s.iterations := by
      intro i it hi
      by_cases hik : i = k
      · subst hik
        rw [hitk] at hi
        injection hi with hfe
        rw [← hfe]
        exact ⟨hg, hc⟩
      · exact hexc i it hi hik
    refine ⟨⟨?_, ?_⟩, hcrit⟩
    · intro i it hi hboth
      rw [(hclosed i it hi).1] at hboth
      exact Bool.noConfusion hboth.1
    · intro i j iti itj hi hj hfi hfj
      exfalso
      rcases hfi with hg2 | hc2
      · rw [(hclosed i iti hi).1] at hg2
        exact Bool.noConfusion hg2
      · rw [(hclosed i iti hi).2] at hc2
        exact Bool.noConfusion hc2
  | critiquing k =>
    obtain ⟨-, -, ⟨itk, hitk, hg, hc, -⟩, hexc, hcrit⟩ :
        s.iterations.length = k + 1 ∧ s.currentIteration = k ∧
          (∃ it, arrGet s.iterations k = some it ∧ it.isGenerating = false ∧
            it.isCritiquing = true ∧ it.generation ≠ "") ∧
          closedExcept s.iterations k ∧ critiqueAfterGeneration s.iterations := hinv
    refine ⟨⟨?_, ?_⟩, hcrit⟩
    · intro i it hi hboth
      by_cases hik : i = k
      · subst hik
        rw [hitk] at hi
        injection hi with hfe
        rw [← hfe] at hboth
        rw [hg] at hboth
        exact Bool.noConfusion hboth.1
      · rw [(hexc i it hi hik).1] at hboth
        exact Bool.noConfusion hboth.1
    · intro i j iti itj hi hj hfi hfj
      by_cases hik : i = k
      · by_cases hjk : j = k
        · rw [hik, hjk]
        · exfalso
          rcases hfj with hg2 | hc2
          · rw [(hexc j itj hj hjk).1] at hg2
            exact Bool.noConfusion hg2
          · rw [(hexc j itj hj hjk).2] at hc2
            exact Bool.noConfusion hc2
      · exfalso
        rcases hfi with hg2 | hc2
        · rw [(hexc i iti hi hik).1] at hg2
          exact Bool.noConfusion hg2
        · rw [(hexc i iti hi hik).2] at hc2
          exact Bool.noConfusion hc2

/-- C5 (amended): in every store state reachable from the initial state by a
protocol-ordered sequence of store actions — each iteration opened once via
`startGeneration`, streamed, closed by `completeGeneration` with non-empty
content, then critiqued and closed by `completeCritique`, with
`completeIteration` re-assertions and `completeSession` carrying non-empty
content — at most one of `isGenerating`/`isCritiquing` is true across all
iterations, and an iteration's critique is non-null only when its
generation is a non-empty string. -/
theorem session_flags_invariant (acts : List StoreAction) (ph : ProtoPhase)
    (hrun : protoRun (.ready 0) acts = some ph) :
    atMostOneActiveFlag (runActions acts initialState).iterations ∧
    critiqueAfterGeneration (runActions acts initialState).iterations :=
  phaseInv_safety ph _ (protoRun_preserves acts _ ph initialState hrun initial_phaseInv)

/-- Witness for the amended C5 on a concrete protocol-ordered trace. -/
theorem session_flags_invariant_witness :
    protoRun (.ready 0) demoTrace = some (.ready 1) ∧
    (atMostOneActiveFlag (runActions demoTrace initialState).iterations ∧
      critiqueAfterGeneration (runActions demoTrace initialState).iterations) :=
  ⟨by decide, session_flags_invariant demoTrace (.ready 1) (by decide)⟩

end ReasonLoop
